import Mathlib

/-!
Shallow embedding of the InfraWatch decision core:
`src/backend/app/domain/stage_engine.py` (StageEngine) and
`src/backend/app/domain/signal_detector.py` (SignalDetector).

Python floats are modelled as exact rationals (ℚ); `Optional[float]`
fields become `Option ℚ`; Python dicts of named boolean facts become
insertion-ordered association lists `List (String × Bool)`; a function
that may return `None` returns `Option _`.  Timestamps (`determined_at`,
`created_at`) and formatted free-text fields (`title`, `description`)
carry no decision logic and are omitted from the records.
-/

-- Let concrete rational arithmetic evaluate inside `decide`/`rfl`
-- proofs (these core operations are shipped reducibility-sealed).
attribute [local semireducible] Rat.ofScientific Rat.mul Rat.inv Rat.add Rat.sub

/-- Embeds `StageCode` enumeration from `app.models`. -/
inductive StageCode where
  | S0 | S1 | S2 | S3
  deriving DecidableEq, Repr

/-- Embeds `Confidence` enumeration from `app.models`. -/
inductive Confidence where
  | LOW | MEDIUM | HIGH
  deriving DecidableEq, Repr

/-- Embeds `SignalType` enumeration (signal_detector.py). -/
inductive SignalType where
  | PRICE_MOVE | COVERAGE_THRESHOLD | SUPPLY_DEMAND_SHIFT
  | ADOPTION_INFLECTION | DISCLOSURE_CHANGE | SUPPLY_CHAIN_ALERT
  deriving DecidableEq, Repr

/-- Embeds `Severity` enumeration (signal_detector.py). -/
inductive Severity where
  | HIGH | MEDIUM | LOW
  deriving DecidableEq, Repr

/-- Embeds `StageMetrics` dataclass: the metric snapshot fed to `determine`.
All float fields default to `None`; `a_growth_streak` is an int
defaulting to `0`. -/
structure StageMetrics where
  m01_low : Option ℚ := none
  m01_high : Option ℚ := none
  b_qoq_deflation : Option ℚ := none
  c_spot_discount : Option ℚ := none
  c_rental_qoq : Option ℚ := none
  a_growth_streak : ℤ := 0
  d3_margin_qoq : Option ℚ := none
  e_supply_tightness : Option ℚ := none
  deriving DecidableEq, Repr

-- StageEngine.THRESHOLDS (stage_engine.py)

def M01_CRITICAL : ℚ := 3/10

def M01_HEALTHY : ℚ := 7/10

def M01_SUSTAINABLE : ℚ := 1

def B_DEFLATION_SEVERE : ℚ := 3/20

def C_SPOT_EXCESS : ℚ := 2/5

def C_RENTAL_STABLE : ℚ := 1/20

def D3_MARGIN_STABLE : ℚ := 3/100

def A_GROWTH_MIN_STREAK : ℤ := 2

def E_SUPPLY_TIGHT : ℚ := 4/5

/-- Embeds `StageEngine._check_s0_conditions`: each fact is added only when its
input field is present, in source order. -/
def check_s0_conditions (m : StageMetrics) : List (String × Bool) :=
  (match m.m01_high with
   | some v => [("m01_too_low", decide (v < M01_CRITICAL))]
   | none => []) ++
  (match m.b_qoq_deflation with
   | some v => [("price_collapse", decide (B_DEFLATION_SEVERE < v))]
   | none => []) ++
  (match m.c_spot_discount with
   | some v => [("capacity_excess", decide (C_SPOT_EXCESS < v))]
   | none => [])

/-- Embeds `StageEngine._check_s3_conditions`. -/
def check_s3_conditions (m : StageMetrics) : List (String × Bool) :=
  (match m.m01_low with
   | some v => [("m01_sustainable", decide (M01_SUSTAINABLE < v))]
   | none => []) ++
  (match m.d3_margin_qoq with
   | some v => [("margin_stable", decide (|v| < D3_MARGIN_STABLE))]
   | none => [])

/-- Embeds `StageEngine._check_s2_conditions`. -/
def check_s2_conditions (m : StageMetrics) : List (String × Bool) :=
  (match m.m01_low with
   | some v => [("m01_healthy", decide (M01_HEALTHY < v))]
   | none => []) ++
  (match m.c_rental_qoq with
   | some v => [("rental_stable", decide (|v| < C_RENTAL_STABLE))]
   | none => []) ++
  (match m.e_supply_tightness with
   | some v => [("supply_stable", decide (v < E_SUPPLY_TIGHT))]
   | none => [])

/-- Embeds `StageEngine._check_s1_conditions`: `m01_transition` needs both
bounds present; `adoption_growing` is always present (streak defaults
to 0). -/
def check_s1_conditions (m : StageMetrics) : List (String × Bool) :=
  (match m.m01_low, m.m01_high with
   | some lo, some hi =>
       [("m01_transition",
         decide (M01_CRITICAL ≤ hi) && decide (lo ≤ M01_HEALTHY))]
   | _, _ => []) ++
  [("adoption_growing", decide (A_GROWTH_MIN_STREAK ≤ m.a_growth_streak))]

/-- Embeds `StageEngine._all_met`: at least `min_count` facts true AND every
present fact true (`all` of an empty dict is vacuously true, so the
count guard is what blocks an all-absent rule set). -/
def all_met (conditions : List (String × Bool)) (min_count : ℕ) : Bool :=
  decide (min_count ≤ (conditions.filter (fun c => c.2)).length) &&
  conditions.all (fun c => c.2)

/-- Embeds `StageEngine._any_met`. -/
def any_met (conditions : List (String × Bool)) : Bool :=
  conditions.any (fun c => c.2)

/-- One transition-risk dictionary entry.  `details` is `none` where the
source omits the key (the `to_S3` branch) and `some` of the computed
fact dict elsewhere; `gap_m01_needed` models `gap.m01_needed` where a
`gap` key exists. -/
structure RiskEntry where
  probability : String
  conditions_met : ℕ
  conditions_total : ℕ
  details : Option (List (String × Bool))
  gap_m01_needed : Option ℚ
  deriving DecidableEq, Repr

/-- Python's builtin `round(x, 2)`: round half to even at two decimal
places. -/
def pyRound2 (q : ℚ) : ℚ :=
  let s : ℚ := q * 100
  let f : ℤ := ⌊s⌋
  let r : ℤ :=
    if s - f < 1/2 then f
    else if 1/2 < s - f then f + 1
    else if f % 2 = 0 then f else f + 1
  (r : ℚ) / 100

/-- Embeds `StageEngine._calculate_transition_risks`.  `m.m01_low or 0` in the
source maps `None` to `0` (and leaves `0.0` at `0`), i.e. `getD 0`. -/
def calculate_transition_risks (current_stage : StageCode)
    (m : StageMetrics) : List (String × RiskEntry) :=
  match current_stage with
  | StageCode.S1 =>
      let s0_conds := check_s0_conditions m
      let met0 := (s0_conds.filter (fun c => c.2)).length
      let s2_conds := check_s2_conditions m
      let met2 := (s2_conds.filter (fun c => c.2)).length
      let m01_gap : ℚ := max 0 (M01_HEALTHY - (m.m01_low.getD 0))
      [("to_S0",
        { probability := if 2 ≤ met0 then "high" else "low",
          conditions_met := met0, conditions_total := 3,
          details := some s0_conds, gap_m01_needed := none }),
       ("to_S2",
        { probability :=
            if 2 ≤ met2 then "high" else if 1 ≤ met2 then "medium" else "low",
          conditions_met := met2, conditions_total := 2,
          details := some s2_conds,
          gap_m01_needed := some (pyRound2 m01_gap) })]
  | StageCode.S2 =>
      let s3_conds := check_s3_conditions m
      let met3 := (s3_conds.filter (fun c => c.2)).length
      let m01_gap : ℚ := max 0 (M01_SUSTAINABLE - (m.m01_low.getD 0))
      [("to_S3",
        { probability := if 2 ≤ met3 then "high" else "medium",
          conditions_met := met3, conditions_total := 2,
          details := none, gap_m01_needed := some (pyRound2 m01_gap) }),
       ("to_S1",
        { probability := "low", conditions_met := 0, conditions_total := 2,
          details := some [], gap_m01_needed := none })]
  | _ => []

/-- Embeds `StageEngine._to_snapshot`. -/
def to_snapshot (m : StageMetrics) : List (String × Option ℚ) :=
  [("m01_low", m.m01_low), ("m01_high", m.m01_high),
   ("b_qoq_deflation", m.b_qoq_deflation),
   ("c_spot_discount", m.c_spot_discount),
   ("c_rental_qoq", m.c_rental_qoq),
   ("a_growth_streak", some (m.a_growth_streak : ℚ)),
   ("d3_margin_qoq", m.d3_margin_qoq),
   ("e_supply_tightness", m.e_supply_tightness)]

/-- Embeds `StageResult` dataclass (without the wall-clock timestamp). -/
structure StageResult where
  stage : StageCode
  confidence : Confidence
  rationale : String
  trigger_conditions : List (String × Bool)
  transition_risks : List (String × RiskEntry)
  metrics_snapshot : List (String × Option ℚ)
  deriving DecidableEq, Repr

/-- Embeds `StageEngine.determine`: priority-ordered stage resolution.  The
source computes a `(stage, confidence, rationale, trigger)` tuple in an
if/elif chain and then builds one `StageResult`; here each branch builds
the identical result directly. -/
def determine (m : StageMetrics) : StageResult :=
  let s0 := check_s0_conditions m
  let s3 := check_s3_conditions m
  let s2 := check_s2_conditions m
  let s1 := check_s1_conditions m
  if all_met s0 3 then
    { stage := StageCode.S0, confidence := Confidence.HIGH,
      rationale := "M01过低 + 价格崩塌 + 产能过剩", trigger_conditions := s0,
      transition_risks := calculate_transition_risks StageCode.S0 m,
      metrics_snapshot := to_snapshot m }
  else if all_met s3 2 then
    { stage := StageCode.S3, confidence := Confidence.HIGH,
      rationale := "M01>1.0 + 云利润率稳定", trigger_conditions := s3,
      transition_risks := calculate_transition_risks StageCode.S3 m,
      metrics_snapshot := to_snapshot m }
  else if all_met s2 2 then
    { stage := StageCode.S2, confidence := Confidence.HIGH,
      rationale := "M01接近自养 + 供需平衡", trigger_conditions := s2,
      transition_risks := calculate_transition_risks StageCode.S2 m,
      metrics_snapshot := to_snapshot m }
  else if any_met s1 then
    { stage := StageCode.S1,
      confidence :=
        if (2 : ℤ) ≤ m.a_growth_streak then Confidence.HIGH
        else Confidence.MEDIUM,
      rationale := "M01过渡区间 或 企业采用持续增长", trigger_conditions := s1,
      transition_risks := calculate_transition_risks StageCode.S1 m,
      metrics_snapshot := to_snapshot m }
  else
    { stage := StageCode.S1, confidence := Confidence.LOW,
      rationale := "指标信号混合，默认判定为过渡期", trigger_conditions := s1,
      transition_risks := calculate_transition_risks StageCode.S1 m,
      metrics_snapshot := to_snapshot m }

/-- Embeds `Signal` dataclass (signal_detector.py), without the formatted
`title`/`description` strings, the timestamp and the externally-flipped
`is_read` flag.  The `metadata` dict only ever holds the keys
`direction` and `m01_high` (coverage-threshold signals), modelled as
two optional fields. -/
structure Signal where
  signal_type : SignalType
  severity : Severity
  metric_id : String
  current_value : ℚ
  previous_value : Option ℚ := none
  change_percent : Option ℚ := none
  threshold : Option ℚ := none
  sector : Option String := none
  provider : Option String := none
  metadata_direction : Option String := none
  metadata_m01_high : Option ℚ := none
  deriving DecidableEq, Repr

-- SignalDetector.THRESHOLDS (signal_detector.py)

def PRICE_MOVE_HIGH : ℚ := 1/10

def PRICE_MOVE_MEDIUM : ℚ := 1/20

def ADOPTION_INFLECTION_MEDIUM : ℚ := 1/5

def SPOT_DISCOUNT_CHANGE : ℚ := 1/10

def m01_thresholds : List ℚ := [3/10, 7/10, 1]

/-- Embeds `SignalDetector.detect_price_signal`: guard on `previous_price == 0`,
then severity by `abs((current - previous) / previous)` against the
HIGH (0.10) and MEDIUM (0.05) tiers; below MEDIUM no signal. -/
def detect_price_signal (metric_id : String)
    (current_price previous_price : ℚ)
    (sector : String := "B") (provider : Option String := none) :
    Option Signal :=
  if previous_price = 0 then none
  else
    let change_percent := (current_price - previous_price) / previous_price
    let abs_change := |change_percent|
    if PRICE_MOVE_HIGH ≤ abs_change then
      some { signal_type := SignalType.PRICE_MOVE, severity := Severity.HIGH,
             metric_id := metric_id, current_value := current_price,
             previous_value := some previous_price,
             change_percent := some (change_percent * 100),
             sector := some sector, provider := provider }
    else if PRICE_MOVE_MEDIUM ≤ abs_change then
      some { signal_type := SignalType.PRICE_MOVE, severity := Severity.MEDIUM,
             metric_id := metric_id, current_value := current_price,
             previous_value := some previous_price,
             change_percent := some (change_percent * 100),
             sector := some sector, provider := provider }
    else none

/-- The `for threshold in thresholds` loop body of
`SignalDetector.detect_coverage_threshold`, with `previous_m01_low`
already known present: first threshold with `prev < t <= now` gives an
upward HIGH signal, first with `prev >= t > now` a downward one,
otherwise continue with the rest of the list. -/
def coverage_scan (m01_low m01_high previous_m01_low : ℚ) :
    List ℚ → Option Signal
  | [] => none
  | threshold :: rest =>
    if previous_m01_low < threshold ∧ threshold ≤ m01_low then
      some { signal_type := SignalType.COVERAGE_THRESHOLD,
             severity := Severity.HIGH, metric_id := "m01_coverage",
             current_value := m01_low,
             previous_value := some previous_m01_low,
             threshold := some threshold,
             metadata_direction := some "up",
             metadata_m01_high := some m01_high }
    else if previous_m01_low ≥ threshold ∧ threshold > m01_low then
      some { signal_type := SignalType.COVERAGE_THRESHOLD,
             severity := Severity.HIGH, metric_id := "m01_coverage",
             current_value := m01_low,
             previous_value := some previous_m01_low,
             threshold := some threshold,
             metadata_direction := some "down",
             metadata_m01_high := some m01_high }
    else coverage_scan m01_low m01_high previous_m01_low rest

/-- Embeds `SignalDetector.detect_coverage_threshold`: when `previous_m01_low`
is `None` the loop body is skipped for every threshold and the call
returns `None`; `previous_m01_high` is accepted but never read. -/
def detect_coverage_threshold (m01_low m01_high : ℚ)
    (previous_m01_low : Option ℚ := none)
    (previous_m01_high : Option ℚ := none) : Option Signal :=
  match previous_m01_low with
  | none =>
      let _ := previous_m01_high
      none
  | some p => coverage_scan m01_low m01_high p m01_thresholds

/-- Embeds `SignalDetector.detect_supply_demand_shift`. -/
def detect_supply_demand_shift
    (current_spot_discount previous_spot_discount : ℚ) : Option Signal :=
  let change := |current_spot_discount - previous_spot_discount|
  if change < SPOT_DISCOUNT_CHANGE then none
  else
    some { signal_type := SignalType.SUPPLY_DEMAND_SHIFT,
           severity := Severity.MEDIUM, metric_id := "c_spot_discount",
           current_value := current_spot_discount,
           previous_value := some previous_spot_discount,
           change_percent := some (change * 100), sector := some "C" }

/-- Embeds `SignalDetector.detect_adoption_inflection`: guard on
`previous_value == 0`, then MEDIUM signal when the absolute fractional
change is at least 0.20, else nothing. -/
def detect_adoption_inflection (metric_id : String)
    (current_value previous_value : ℚ) : Option Signal :=
  if previous_value = 0 then none
  else
    let change_percent := (current_value - previous_value) / previous_value
    if |change_percent| < ADOPTION_INFLECTION_MEDIUM then none
    else
      some { signal_type := SignalType.ADOPTION_INFLECTION,
             severity := Severity.MEDIUM, metric_id := metric_id,
             current_value := current_value,
             previous_value := some previous_value,
             change_percent := some (change_percent * 100),
             sector := some "A" }

/-- Count of true facts in a rule set (the `sum(1 for v in ... if v)`
idiom of the source). -/
def true_count (conditions : List (String × Bool)) : ℕ :=
  (conditions.filter (fun c => c.2)).length

/-- Snapshot of the spec's end-to-end scenario. -/
def scenario_metrics : StageMetrics :=
  { m01_low := some (24/100), m01_high := some (36/100),
    b_qoq_deflation := some (8/100), c_spot_discount := some (26/100),
    c_rental_qoq := some (2/100), a_growth_streak := 2,
    d3_margin_qoq := some (-2/100), e_supply_tightness := some (85/100) }

-- Helper lemmas shared by several claims.

/-- In every branch of `determine`, the transition risks are those
computed for the branch's own stage. -/
lemma determine_transition_risks (m : StageMetrics) :
    (determine m).transition_risks =
      calculate_transition_risks (determine m).stage m := by
  unfold determine
  dsimp only
  split_ifs <;> rfl

/-- A snapshot is classified `S1` only in the two `S1` branches, both of
which sit below a failed `S2` check. -/
lemma stage_S1_not_all_met_s2 (m : StageMetrics)
    (h : (determine m).stage = StageCode.S1) :
    all_met (check_s2_conditions m) 2 = false := by
  by_cases hs2 : all_met (check_s2_conditions m) 2 = true
  · exfalso
    unfold determine at h
    dsimp only at h
    split_ifs at h
  · exact Bool.eq_false_iff.mpr hs2

/-- If a filtered-true count reaches the whole length, every fact in the
list is true. -/
lemma all_of_true_count_eq_length (l : List (String × Bool))
    (h : l.length ≤ true_count l) : l.all (fun c => c.2) = true := by
  induction l with
  | nil => rfl
  | cons a t ih =>
      unfold true_count at h
      by_cases ha : a.2 = true
      · simp only [List.all_cons, ha, Bool.true_and]
        apply ih
        unfold true_count
        simpa [List.filter_cons, ha] using h
      · exfalso
        have hle : (List.filter (fun c => c.2) t).length ≤ t.length :=
          List.length_filter_le _ _
        simp only [List.filter_cons, ha, Bool.false_eq_true, if_false,
          List.length_cons] at h
        omega

/-- The list `check_s2_conditions` never holds more than three facts. -/
lemma check_s2_length_le (m : StageMetrics) :
    (check_s2_conditions m).length ≤ 3 := by
  unfold check_s2_conditions
  rcases m.m01_low with _ | a <;> rcases m.c_rental_qoq with _ | b <;>
    rcases m.e_supply_tightness with _ | c <;> simp

/-- With the `S2` rule set not satisfied, at most two of its facts can
be true. -/
lemma s2_true_count_le_two (m : StageMetrics)
    (h : all_met (check_s2_conditions m) 2 = false) :
    true_count (check_s2_conditions m) ≤ 2 := by
  by_contra hgt
  push_neg at hgt
  have hlen : true_count (check_s2_conditions m) ≤
      (check_s2_conditions m).length := List.length_filter_le _ _
  have h3 : (check_s2_conditions m).length ≤ 3 := check_s2_length_le m
  have hc : (check_s2_conditions m).length ≤ true_count (check_s2_conditions m) := by
    omega
  have hall := all_of_true_count_eq_length _ hc
  have hmet : all_met (check_s2_conditions m) 2 = true := by
    unfold all_met
    rw [hall]
    simp only [Bool.and_true, decide_eq_true_eq]
    unfold true_count at hgt
    omega
  simp [hmet] at h

/-- C1: whenever all three S0 input fields are present and all three S0
facts hold (`m01_high < 0.30`, `price_deflation_qoq > 0.15`,
`spot_discount > 0.40`), `determine` returns stage `S0` with `HIGH`
confidence, whatever the remaining fields are. -/
theorem determine_S0_when_all_s0_facts_true (m : StageMetrics) (a b c : ℚ)
    (h1 : m.m01_high = some a) (h2 : m.b_qoq_deflation = some b)
    (h3 : m.c_spot_discount = some c)
    (ha : a < M01_CRITICAL) (hb : B_DEFLATION_SEVERE < b)
    (hc : C_SPOT_EXCESS < c) :
    (determine m).stage = StageCode.S0 ∧
      (determine m).confidence = Confidence.HIGH := by
  have hs0 : check_s0_conditions m =
      [("m01_too_low", true), ("price_collapse", true),
       ("capacity_excess", true)] := by
    simp [check_s0_conditions, h1, h2, h3, ha, hb, hc]
  unfold determine
  dsimp only
  rw [hs0]
  simp [all_met]

/-- Witness for C1: a concrete snapshot with all three S0 facts true. -/
theorem determine_S0_when_all_s0_facts_true_witness :
    (determine { m01_high := some (1/5), b_qoq_deflation := some (1/5),
                 c_spot_discount := some (1/2) }).stage = StageCode.S0 ∧
    (determine { m01_high := some (1/5), b_qoq_deflation := some (1/5),
                 c_spot_discount := some (1/2) }).confidence =
      Confidence.HIGH :=
  determine_S0_when_all_s0_facts_true _ (1/5) (1/5) (1/2) rfl rfl rfl
    (by norm_num [M01_CRITICAL]) (by norm_num [B_DEFLATION_SEVERE])
    (by norm_num [C_SPOT_EXCESS])

/-- C2: on the all-absent snapshot (streak defaulting to 0) `determine`
falls through every rule set and returns the `S1`/`LOW` fallback with
the fallback rationale. -/
theorem determine_fallback_all_absent :
    (determine {}).stage = StageCode.S1 ∧
    (determine {}).confidence = Confidence.LOW ∧
    (determine {}).rationale = "指标信号混合，默认判定为过渡期" := by
  refine ⟨rfl, rfl, rfl⟩

/-- C6: the spec's end-to-end scenario snapshot classifies as `S1` with
`HIGH` confidence, transition risk to S0 "low" and opportunity to S2
"medium". -/
theorem determine_scenario :
    (determine scenario_metrics).stage = StageCode.S1 ∧
    (determine scenario_metrics).confidence = Confidence.HIGH ∧
    ((determine scenario_metrics).transition_risks.lookup "to_S0").map
        (fun r => r.probability) = some "low" ∧
    ((determine scenario_metrics).transition_risks.lookup "to_S2").map
        (fun r => r.probability) = some "medium" := by
  refine ⟨by decide, by decide, by decide, by decide⟩

/-- C7: the transition-risk map never keys the winning stage itself, and
is empty when the winning stage is S0 or S3. -/
theorem transition_risks_exclude_current_stage (m : StageMetrics) :
    (((determine m).transition_risks.lookup
        (match (determine m).stage with
         | StageCode.S0 => "to_S0" | StageCode.S1 => "to_S1"
         | StageCode.S2 => "to_S2" | StageCode.S3 => "to_S3")) = none) ∧
    ((determine m).stage = StageCode.S0 ∨ (determine m).stage = StageCode.S3 →
      (determine m).transition_risks = []) := by
  rw [determine_transition_risks m]
  have e10 : ("to_S1" == "to_S0") = false := by decide
  have e12 : ("to_S1" == "to_S2") = false := by decide
  have e23 : ("to_S2" == "to_S3") = false := by decide
  have e21 : ("to_S2" == "to_S1") = false := by decide
  rcases hs : (determine m).stage <;>
    simp [calculate_transition_risks, List.lookup, e10, e12, e23, e21]

/-- Witness for C7: at a concrete S0-classified snapshot the risk map is
empty (hence also has no `to_S0` key). -/
theorem transition_risks_exclude_current_stage_witness :
    (determine { m01_high := some (1/5), b_qoq_deflation := some (1/5),
                 c_spot_discount := some (1/2) }).transition_risks = [] :=
  (transition_risks_exclude_current_stage _).2 (Or.inl (by decide))

/-- C8: both percentage-change detectors return no signal when the
previous value is 0; in this total embedding the zero guard makes the
division unreachable, so no exception and no NaN can arise. -/
theorem zero_previous_yields_no_signal (metric_id : String)
    (current : ℚ) (sector : String) (provider : Option String) :
    detect_price_signal metric_id current 0 sector provider = none ∧
    detect_adoption_inflection metric_id current 0 = none := by
  constructor <;> rfl

/-- The `to_S2` entry produced for an `S1` classification, in closed
form. -/
lemma lookup_to_S2_S1 (m : StageMetrics) :
    (calculate_transition_risks StageCode.S1 m).lookup "to_S2" =
      some { probability :=
               if 2 ≤ true_count (check_s2_conditions m) then "high"
               else if 1 ≤ true_count (check_s2_conditions m) then "medium"
               else "low",
             conditions_met := true_count (check_s2_conditions m),
             conditions_total := 2,
             details := some (check_s2_conditions m),
             gap_m01_needed :=
               some (pyRound2 (max 0 (M01_HEALTHY - m.m01_low.getD 0))) } := by
  have e20 : ("to_S2" == "to_S0") = false := by decide
  have e22 : ("to_S2" == "to_S2") = true := by decide
  simp [calculate_transition_risks, List.lookup, e20, e22, true_count]

/-- Input exhibiting the rounding in the `to_S2` gap: `m01_low = 0.123`
classifies as S1 and leaves a raw gap of `0.577`. -/
def gap_rounding_metrics : StageMetrics :=
  { m01_low := some (123/1000), m01_high := some (1/2) }

/-- C3 fails as stated: the source rounds the gap to two decimals
(`round(m01_gap, 2)`), so at `m01_low = 0.123` the reported
`gap.m01_needed` is `0.58`, not `max(0, 0.70 - 0.123) = 0.577`. -/
theorem s1_to_S2_gap_rounding_counterexample :
    (determine gap_rounding_metrics).stage = StageCode.S1 ∧
    ((determine gap_rounding_metrics).transition_risks.lookup "to_S2").map
        (fun r => r.gap_m01_needed) = some (some (58/100)) ∧
    (58 : ℚ)/100 ≠ max 0 (M01_HEALTHY - (123/1000 : ℚ)) := by
  refine ⟨by decide, by decide, by decide⟩

/-- C3 (amended): for every snapshot classified `S1`, the `to_S2` entry
has probability "high" when at least 2 of the S2 facts are true,
"medium" when at least 1 is, else "low", and `gap.m01_needed` equal to
`max(0, 0.70 - m01_low)` rounded half-to-even at two decimals, with an
absent `m01_low` treated as 0. -/
theorem s1_to_S2_risk (m : StageMetrics)
    (h : (determine m).stage = StageCode.S1) :
    ∃ r, (determine m).transition_risks.lookup "to_S2" = some r ∧
      r.probability =
        (if 2 ≤ true_count (check_s2_conditions m) then "high"
         else if 1 ≤ true_count (check_s2_conditions m) then "medium"
         else "low") ∧
      r.gap_m01_needed =
        some (pyRound2 (max 0 (M01_HEALTHY - m.m01_low.getD 0))) := by
  rw [determine_transition_risks m, h]
  exact ⟨_, lookup_to_S2_S1 m, rfl, rfl⟩

/-- Witness for C3 (amended) at the end-to-end scenario snapshot. -/
theorem s1_to_S2_risk_witness :
    ∃ r, (determine scenario_metrics).transition_risks.lookup "to_S2" =
        some r ∧
      r.probability =
        (if 2 ≤ true_count (check_s2_conditions scenario_metrics) then "high"
         else if 1 ≤ true_count (check_s2_conditions scenario_metrics) then
           "medium"
         else "low") ∧
      r.gap_m01_needed =
        some (pyRound2
          (max 0 (M01_HEALTHY - scenario_metrics.m01_low.getD 0))) :=
  s1_to_S2_risk scenario_metrics (by decide)

/-- Snapshot with all three S2 facts present and true while the S0 rule
set also fully fires, so the higher-priority S0 wins. -/
def s2_saturated_metrics : StageMetrics :=
  { m01_low := some (8/10), m01_high := some (2/10),
    b_qoq_deflation := some (2/10), c_spot_discount := some (1/2),
    c_rental_qoq := some 0, e_supply_tightness := some (1/2) }

/-- C9's existential part fails: at the described witness (all three S2
facts true with an earlier stage winning) the result carries no `to_S2`
entry at all, so a `conditions_met` of 3 is never reported. -/
theorem s2_saturated_no_to_S2_counterexample :
    true_count (check_s2_conditions s2_saturated_metrics) = 3 ∧
    (determine s2_saturated_metrics).stage = StageCode.S0 ∧
    (determine s2_saturated_metrics).transition_risks = [] := by
  refine ⟨by decide, by decide, by decide⟩

/-- C9 (amended): for every snapshot classified `S1`, the `to_S2` entry
counts the true facts among all three S2 facts while
`conditions_total` is the constant 2 — but the count can never exceed
2, because a snapshot with all three S2 facts true is never classified
`S1` (the S2 rule set would have fired first), and when S0 or S3 wins no
`to_S2` entry exists. -/
theorem s1_to_S2_conditions_met (m : StageMetrics)
    (h : (determine m).stage = StageCode.S1) :
    ∃ r, (determine m).transition_risks.lookup "to_S2" = some r ∧
      r.conditions_met = true_count (check_s2_conditions m) ∧
      r.conditions_total = 2 ∧
      r.conditions_met ≤ 2 := by
  rw [determine_transition_risks m, h]
  refine ⟨_, lookup_to_S2_S1 m, rfl, rfl, ?_⟩
  exact s2_true_count_le_two m (stage_S1_not_all_met_s2 m h)

/-- Witness for C9 (amended) at the end-to-end scenario snapshot. -/
theorem s1_to_S2_conditions_met_witness :
    ∃ r, (determine scenario_metrics).transition_risks.lookup "to_S2" =
        some r ∧
      r.conditions_met = true_count (check_s2_conditions scenario_metrics) ∧
      r.conditions_total = 2 ∧
      r.conditions_met ≤ 2 :=
  s1_to_S2_conditions_met scenario_metrics (by decide)

/-- Modelled from the spec's words for the coverage-threshold rule (the
refinement reference C4 compares the source detector against): scan the
ordered threshold list in ascending order and return the first
threshold crossed, paired with `true` for an upward crossing
(`prev < t <= now`) and `false` for a downward one
(`prev >= t > now`); `none` when no threshold is crossed. -/
def spec_first_crossing (prev now : ℚ) : List ℚ → Option (ℚ × Bool)
  | [] => none
  | t :: ts =>
    if prev < t ∧ t ≤ now then some (t, true)
    else if prev ≥ t ∧ t > now then some (t, false)
    else spec_first_crossing prev now ts

/-- C4: with a previous low value present, the coverage-threshold
detector agrees with the spec's ascending first-crossed scan — the
reported threshold is the lowest crossed one, its direction tag matches
the crossing direction, at most one signal is produced per call (the
result is a single `Option`), and no signal is produced when no
threshold is crossed. -/
theorem coverage_threshold_first_crossing (m01_low m01_high p : ℚ)
    (previous_m01_high : Option ℚ) :
    (detect_coverage_threshold m01_low m01_high (some p)
        previous_m01_high).map
        (fun s => (s.threshold, s.metadata_direction)) =
      (spec_first_crossing p m01_low m01_thresholds).map
        (fun td => (some td.1, some (if td.2 then "up" else "down"))) := by
  show (coverage_scan m01_low m01_high p m01_thresholds).map _ = _
  simp only [m01_thresholds, coverage_scan, spec_first_crossing]
  split_ifs <;> rfl

/-- C5: away from a zero previous price, the price-move detector yields
severity HIGH exactly when the absolute fractional change is at least
0.10, MEDIUM exactly when it lies in [0.05, 0.10), and nothing exactly
when it is below 0.05. -/
theorem price_signal_severity (metric_id : String)
    (current previous : ℚ) (sector : String) (provider : Option String)
    (hp : previous ≠ 0) :
    (detect_price_signal metric_id current previous sector provider =
        none ↔ |(current - previous) / previous| < 1/20) ∧
    ((detect_price_signal metric_id current previous sector provider).map
        (fun s => s.severity) = some Severity.HIGH ↔
      1/10 ≤ |(current - previous) / previous|) ∧
    ((detect_price_signal metric_id current previous sector provider).map
        (fun s => s.severity) = some Severity.MEDIUM ↔
      (1/20 ≤ |(current - previous) / previous| ∧
        |(current - previous) / previous| < 1/10)) := by
  unfold detect_price_signal PRICE_MOVE_HIGH PRICE_MOVE_MEDIUM
  rw [if_neg hp]
  dsimp only
  split_ifs with h1 h2
  · refine ⟨?_, ?_, ?_⟩
    · simp
      linarith
    · simp
      linarith
    · simp
      intro hx
      linarith
  · have h1x := lt_of_not_le h1
    refine ⟨?_, ?_, ?_⟩
    · simp
      linarith
    · simp
      linarith
    · simp
      exact ⟨by linarith, by linarith⟩
  · have h2x := lt_of_not_le h2
    refine ⟨?_, ?_, ?_⟩
    · simp
      linarith
    · simp
      linarith
    · simp
      intro hx
      linarith

/-- Witness for C5 at the spec's boundary examples: +10% is HIGH, +6%
is MEDIUM, +4% is no signal. -/
theorem price_signal_severity_witness :
    (detect_price_signal "m" 110 100 "B" none).map (fun s => s.severity) =
        some Severity.HIGH ∧
    (detect_price_signal "m" 106 100 "B" none).map (fun s => s.severity) =
        some Severity.MEDIUM ∧
    detect_price_signal "m" 104 100 "B" none = none :=
  ⟨((price_signal_severity "m" 110 100 "B" none (by decide)).2.1).mpr
      (by decide),
   ((price_signal_severity "m" 106 100 "B" none (by decide)).2.2).mpr
      (by decide),
   ((price_signal_severity "m" 104 100 "B" none (by decide)).1).mpr
      (by decide)⟩

/-- Projection of the coverage-signal fields that decide what is
reported: presence, threshold, severity and direction. -/
def signal_core (s : Signal) : Option ℚ × Severity × Option String :=
  (s.threshold, s.severity, s.metadata_direction)

/-- The scan's reported core is independent of the `m01_high` echoed
into metadata. -/
lemma coverage_scan_core (m01_low p h1 h2 : ℚ) (ts : List ℚ) :
    (coverage_scan m01_low h1 p ts).map signal_core =
      (coverage_scan m01_low h2 p ts).map signal_core := by
  induction ts with
  | nil => rfl
  | cons t rest ih =>
      unfold coverage_scan
      split_ifs <;> first | rfl | exact ih

/-- C10: two coverage-threshold calls agreeing on `m01_low` and
`previous_m01_low` agree on whether a signal is produced and on its
threshold, severity and direction, whatever `m01_high` and
`previous_m01_high` are; and with `previous_m01_low` absent the
detector returns no signal for every other argument. -/
theorem coverage_threshold_depends_only_on_low (m01_low p : ℚ)
    (h1 h2 : ℚ) (ph1 ph2 : Option ℚ) :
    ((detect_coverage_threshold m01_low h1 (some p) ph1).map signal_core =
      (detect_coverage_threshold m01_low h2 (some p) ph2).map signal_core) ∧
    (∀ mh : ℚ, ∀ pmh : Option ℚ,
      detect_coverage_threshold m01_low mh none pmh = none) :=
  ⟨coverage_scan_core m01_low p h1 h2 m01_thresholds, fun _ _ => rfl⟩
